import Mathlib

/-!
Verification development for the Ubuntu_Requests image-fetching pipeline.

The repository contains two near-duplicate scripts, both modelled here:

* `vibe-coded with Claude/claude-image fetcher.py`, class `UbuntuImageFetcher`
  (namespace `UbuntuImageFetcher` below): in-memory md5 fingerprint set,
  filename sanitization, `_k` collision-suffix loop, 10 MiB declared-size cap.
* `image_downloader.py` (namespace `ImageDownloader` below): per-path sha256
  comparison, content-type substring check, no sanitization, direct write.

Modelling conventions:

* Python `str` is `List Char`; byte payloads are `List Nat`.
* The flat destination directory is an association list
  `List (List Char × List Nat)` from filename to file content;
  `os.path.exists` on `os.path.join(directory, name)` is membership of `name`
  among the keys. (`os.path.splitext` is applied by the source to the joined
  path `Fetched_Images/<name>`; since the fixed directory component contains
  no `.` and posix `splitext` only inspects the part after the last `/`, it
  is modelled at the filename level.)
* The md5/sha256 hex digest is an explicit parameter `fp : List Nat → List Nat`:
  theorems hold for an arbitrary digest, and concrete evaluations instantiate
  it with an injective one (the identity), matching the spec's assumption that
  digest collisions are negligible.
* `time.time()` is an explicit `ts : Nat` argument; `str(...)` on a counter or
  timestamp is `decRepr`, a standard decimal printer.
* Network transport and console printing are outside the model. The only
  fallible effect a claim depends on is the final file write: the boolean
  `writeOk` argument of `UbuntuImageFetcher.fetch_image` says whether
  `open(filepath, 'wb')` succeeds; when it raises, the generic `except`
  clause returns `False` (modelled as the `writeFail` result).
* Python's Unicode-aware `str.isalnum`, `str.lower` are modelled on the ASCII
  fragment by `Char.isAlphanum`, `Char.toLower`.
-/

/-- Character list of a string literal. -/
def chars (s : String) : List Char := s.data

/-- Python `str.lower` (ASCII fragment). -/
def toLower (s : List Char) : List Char := s.map Char.toLower

/-- posix `os.path.basename`: everything after the last `/`. -/
def basename (p : List Char) : List Char :=
  (p.reverse.takeWhile (fun c => c != '/')).reverse

/-- posix `os.path.splitext` on a name with no directory part: split at the
last `.` provided some non-dot character precedes it; otherwise the extension
is empty. -/
def splitext (s : List Char) : List Char × List Char :=
  if '.' ∈ s then
    let r := s.reverse
    let i := r.findIdx (fun c => c == '.')
    let stem := (r.drop (i + 1)).reverse
    if stem.any (fun c => c != '.') then (stem, (r.take (i + 1)).reverse)
    else (s, [])
  else (s, [])

/-- Decimal digit character, `0 ≤ d ≤ 9` in intended use. -/
def digitChar (d : Nat) : Char := Char.ofNat (48 + d)

/-- Fuel-indexed decimal printer: emits the digits of `n` in front of `acc`. -/
def decReprAux : Nat → Nat → List Char → List Char
  | 0, _, acc => acc
  | fuel + 1, n, acc =>
    if n < 10 then digitChar (n % 10) :: acc
    else decReprAux fuel (n / 10) (digitChar (n % 10) :: acc)

/-- Decimal representation of a natural number, as Python's `str`. -/
def decRepr (n : Nat) : List Char := decReprAux (n + 1) n []

/-- The `k`-th candidate name tried by the collision loop at
`claude-image fetcher.py:117-122`: the original candidate for `k = 0`, and
`stem_k.ext` (suffix inserted before the extension of the original) for
`k ≥ 1`. -/
def tryName (cand : List Char) : Nat → List Char
  | 0 => cand
  | k + 1 => (splitext cand).1 ++ '_' :: (decRepr (k + 1) ++ (splitext cand).2)

/-- Largest length of a filename in the directory listing. -/
def maxLen (l : List (List Char)) : Nat := l.foldr (fun s m => max s.length m) 0

/-- The `while os.path.exists(filepath)` loop of
`claude-image fetcher.py:117-122`, with explicit fuel: starting from
candidate index `k`, return the first `tryName cand j` (`j ≥ k`) that is not
an existing file. -/
def resolveLoop (existing : List (List Char)) (cand : List Char) :
    Nat → Nat → Option (List Char)
  | _, 0 => none
  | k, fuel + 1 =>
    if tryName cand k ∈ existing then resolveLoop existing cand (k + 1) fuel
    else some (tryName cand k)

/-- Fuel sufficient for the collision loop: the name suffixed with
`10 ^ maxLen existing` is longer than every existing name, so the loop stops
at or before that index. -/
def fuelFor (existing : List (List Char)) : Nat := 10 ^ maxLen existing + 1

/-- Collision resolution of `claude-image fetcher.py:116-122`: first name in
the sequence `cand, stem_1.ext, stem_2.ext, …` that does not exist. The
`getD` default is dead code (`resolveLoop` is proved to return `some` at this
fuel). -/
def resolveCollision (existing : List (List Char)) (cand : List Char) : List Char :=
  (resolveLoop existing cand 0 (fuelFor existing)).getD cand

/-- Result of `urllib.parse.urlparse`, restricted to the two components the
sources read. `urlparse` itself is Python stdlib, not repository code. -/
structure Url where
  netloc : List Char
  path : List Char

/-- An HTTP response that passed `raise_for_status`: declared content type,
declared content length (absent if the server omitted the header), payload. -/
structure Response where
  contentType : List Char
  contentLength : Option Nat
  body : List Nat

/-- Directory lookup: content of the file called `filename`, if present. -/
def lookupFs (fs : List (List Char × List Nat)) (filename : List Char) :
    Option (List Nat) :=
  (fs.find? (fun p => p.1 == filename)).map Prod.snd

/-- Filenames present in the destination directory. -/
def keys (fs : List (List Char × List Nat)) : List (List Char) := fs.map Prod.fst

/-- Characters kept by the sanitizer at `claude-image fetcher.py:76`:
`c.isalnum() or c in '._-'`. -/
def allowedChar (c : Char) : Bool :=
  c.isAlphanum || c == '.' || c == '_' || c == '-'

/-- The sanitizer at `claude-image fetcher.py:76`. -/
def sanitize (filename : List Char) : List Char := filename.filter allowedChar

/-- Python substring containment `pat in s`. -/
def isSubstr (pat : List Char) : List Char → Bool
  | [] => pat.isEmpty
  | c :: rest => pat.isPrefixOf (c :: rest) || isSubstr pat rest

/-- Python `netloc.replace('www.', '')`: remove every occurrence of `www.`,
scanning left to right. -/
def removeWWW : List Char → List Char
  | 'w' :: 'w' :: 'w' :: '.' :: rest => removeWWW rest
  | c :: rest => c :: removeWWW rest
  | [] => []

namespace UbuntuImageFetcher

/-- Fetcher state: the destination directory and the `downloaded_hashes` set
(seeded at startup from the directory scan, `_load_existing_hashes`). -/
structure FetchState where
  fs : List (List Char × List Nat)
  hashes : List (List Nat)
  deriving DecidableEq

/-- Per-URL result of `fetch_image`. The source returns a bare `bool`; the
constructors record which exit path produced it (`ok` ↦ `True`, the rest ↦
`False`). -/
inductive FetchResult
  | ok (filename : List Char)
  | dup
  | tooLarge
  | writeFail
  deriving DecidableEq

/-- The boolean actually returned by the Python `fetch_image`. -/
def FetchResult.toBool : FetchResult → Bool
  | .ok _ => true
  | _ => false

/-- The `content_type.startswith('image/')` test at
`claude-image fetcher.py:49`. In the source it only guards a printed
warning; it never rejects the response. -/
def isImageCT (ct : List Char) : Bool := (chars "image/").isPrefixOf ct

/-- `_get_content_info` (claude-image fetcher.py:43-59): lower-case the
declared content type, and raise `ValueError` when a declared length exceeds
10 MiB (`int(content_length) / (1024*1024) > 10`, i.e. length `> 10485760`;
the float division by a power of two is exact). A non-image content type is
only warned about (see `isImageCT`), never rejected. -/
def get_content_info : Response → Except Unit (List Char × Option Nat)
  | ⟨ct, some l, _⟩ => if 10485760 < l then .error () else .ok (toLower ct, some l)
  | ⟨ct, none, _⟩ => .ok (toLower ct, none)

/-- Whether the declared length passes the cap (no header passes trivially). -/
def sizeOk : Response → Bool
  | ⟨_, some l, _⟩ => decide (l ≤ 10485760)
  | ⟨_, none, _⟩ => true

/-- Python stdlib call `mimetypes.guess_extension` as used at
`claude-image fetcher.py:69`, restricted to the image types of the spec's
§4.1 table (the stdlib itself is not repository code); unknown types give
`none` and the caller's `or '.jpg'` supplies the default. -/
def guess_extension (ct : List Char) : Option (List Char) :=
  if ct = chars "image/jpeg" then some (chars ".jpg")
  else if ct = chars "image/png" then some (chars ".png")
  else if ct = chars "image/gif" then some (chars ".gif")
  else if ct = chars "image/bmp" then some (chars ".bmp")
  else if ct = chars "image/webp" then some (chars ".webp")
  else none

/-- `_generate_filename` (claude-image fetcher.py:61-77): take the URL path's
basename; if it is empty or contains no `.`, synthesize
`domain_timestamp.ext`; finally sanitize. -/
def generate_filename (u : Url) (contentType : List Char) (ts : Nat) : List Char :=
  let filename := basename u.path
  let filename :=
    if filename = [] ∨ '.' ∉ filename then
      removeWWW u.netloc ++ '_' :: (decRepr ts ++ (guess_extension contentType).getD (chars ".jpg"))
    else filename
  sanitize filename

/-- `_is_duplicate` (claude-image fetcher.py:79-85): hash the payload; if the
hash is recorded report a duplicate, otherwise record it (returning the grown
set) and report non-duplicate. -/
def is_duplicate (fp : List Nat → List Nat) (hashes : List (List Nat))
    (content : List Nat) : Bool × List (List Nat) :=
  if fp content ∈ hashes then (true, hashes) else (false, fp content :: hashes)

/-- `fetch_image` (claude-image fetcher.py:87-151), from the point where the
HTTP request has succeeded: content info (possible `ValueError` for a large
declared size, caught as a failure), duplicate check, filename generation,
collision resolution, write. `writeOk` is whether the file write succeeds;
a raising write is caught by the generic `except` clause. -/
def fetch_image (fp : List Nat → List Nat) (u : Url) (r : Response) (ts : Nat)
    (writeOk : Bool) (st : FetchState) : FetchResult × FetchState :=
  match get_content_info r with
  | .error _ => (.tooLarge, st)
  | .ok (ct, _) =>
    let content := r.body
    let checked := is_duplicate fp st.hashes content
    if checked.1 then (.dup, st)
    else
      let filename := generate_filename u ct ts
      let filepath := resolveCollision (keys st.fs) filename
      if writeOk then (.ok filepath, ⟨(filepath, content) :: st.fs, checked.2⟩)
      else (.writeFail, ⟨st.fs, checked.2⟩)

/-- The tally of `fetch_multiple_images` (claude-image fetcher.py:153-173):
`{"successful": _, "failed": _, "duplicates": _}`. -/
structure Results where
  successful : Nat
  failed : Nat
  duplicates : Nat
  deriving DecidableEq

/-- `fetch_multiple_images` (claude-image fetcher.py:153-173): fold
`fetch_image` over the batch; a `True` return increments `successful`, a
`False` return increments `failed`. The `duplicates` field is initialized to
`0` and never incremented anywhere in the source. Each item carries its own
timestamp (time advances between iterations). -/
def fetch_multiple_images (fp : List Nat → List Nat)
    (items : List (Url × Response × Nat)) (st : FetchState) :
    Results × FetchState :=
  items.foldl
    (fun acc item =>
      let r := fetch_image fp item.1 item.2.1 item.2.2 true acc.2
      (if r.1.toBool then ⟨acc.1.successful + 1, acc.1.failed, acc.1.duplicates⟩
       else ⟨acc.1.successful, acc.1.failed + 1, acc.1.duplicates⟩, r.2))
    (⟨0, 0, 0⟩, st)

end UbuntuImageFetcher

namespace ImageDownloader

/-- `VALID_EXTENSIONS` (image_downloader.py:6). -/
def VALID_EXTENSIONS : List (List Char) :=
  [chars ".jpg", chars ".jpeg", chars ".png", chars ".gif", chars ".bmp", chars ".webp"]

/-- `get_extension_from_content_type` (image_downloader.py:8-17): exact-match
table on the lowered content type, defaulting to `.jpg`. -/
def get_extension_from_content_type (contentType : List Char) : List Char :=
  let ct := toLower contentType
  if ct = chars "image/jpeg" then chars ".jpg"
  else if ct = chars "image/png" then chars ".png"
  else if ct = chars "image/gif" then chars ".gif"
  else if ct = chars "image/bmp" then chars ".bmp"
  else if ct = chars "image/webp" then chars ".webp"
  else chars ".jpg"

/-- `get_filename` (image_downloader.py:19-32). Note the source's
indentation: the valid-extension check (lines 28-30) is nested inside the
`if not filename:` branch, so it only ever runs on the fixed substitute name
`downloaded_image.jpg` (which always passes it); a non-empty basename is
returned unchanged, with no sanitization. -/
def get_filename (u : Url) (contentType : List Char) : List Char :=
  let filename := basename u.path
  if filename = [] then
    let filename := chars "downloaded_image.jpg"
    if VALID_EXTENSIONS.any (fun e => e.isSuffixOf (toLower filename)) then filename
    else filename ++ get_extension_from_content_type contentType
  else filename

/-- `file_already_exists` (image_downloader.py:34-40): only the file at the
very same target path is compared (by digest). -/
def file_already_exists (fp : List Nat → List Nat)
    (fs : List (List Char × List Nat)) (filename : List Char)
    (content : List Nat) : Bool :=
  match lookupFs fs filename with
  | none => false
  | some existing => fp existing == fp content

/-- Per-URL result of `ImageDownloader.fetch_image` (the source prints and
returns `None`; the constructors record which exit path was taken). -/
inductive DlResult
  | ok (filename : List Char)
  | notImage
  | dup
  deriving DecidableEq

/-- `open(filepath, "wb").write(content)`: create or truncate-and-replace the
file at `filename`. -/
def writeFile (fs : List (List Char × List Nat)) (filename : List Char)
    (content : List Nat) : List (List Char × List Nat) :=
  (filename, content) :: fs.filter (fun p => p.1 != filename)

/-- `fetch_image` (image_downloader.py:42-75), from the point where the HTTP
request has succeeded: reject when `"image"` is not a substring of the
lowered content type, then the per-path duplicate check, then write. -/
def fetch_image (fp : List Nat → List Nat) (u : Url) (r : Response)
    (fs : List (List Char × List Nat)) :
    DlResult × List (List Char × List Nat) :=
  if isSubstr (chars "image") (toLower r.contentType) = false then (.notImage, fs)
  else
    let filename := get_filename u r.contentType
    if file_already_exists fp fs filename r.body then (.dup, fs)
    else (.ok filename, writeFile fs filename r.body)

end ImageDownloader

namespace UbuntuImageFetcher

theorem get_content_info_of_sizeOk {r : Response} (h : sizeOk r = true) :
    get_content_info r = .ok (toLower r.contentType, r.contentLength) := by
  obtain ⟨ct, cl, body⟩ := r
  cases cl with
  | none => rfl
  | some l =>
    simp only [sizeOk, decide_eq_true_eq] at h
    simp only [get_content_info]
    rw [if_neg (by omega)]

theorem get_content_info_too_large {r : Response} {l : Nat}
    (hl : r.contentLength = some l) (hc : 10485760 < l) :
    get_content_info r = .error () := by
  obtain ⟨ct, cl, body⟩ := r
  simp only at hl
  subst hl
  simp only [get_content_info]
  rw [if_pos hc]

theorem is_duplicate_of_not_mem {fp : List Nat → List Nat}
    {hashes : List (List Nat)} {content : List Nat}
    (h : fp content ∉ hashes) :
    is_duplicate fp hashes content = (false, fp content :: hashes) := by
  simp only [is_duplicate]
  rw [if_neg h]

theorem is_duplicate_of_mem {fp : List Nat → List Nat}
    {hashes : List (List Nat)} {content : List Nat}
    (h : fp content ∈ hashes) :
    is_duplicate fp hashes content = (true, hashes) := by
  simp only [is_duplicate]
  rw [if_pos h]

theorem fetch_image_dup {fp : List Nat → List Nat} {u : Url} {r : Response}
    {ts : Nat} {w : Bool} {st : FetchState}
    (hsize : sizeOk r = true) (hmem : fp r.body ∈ st.hashes) :
    fetch_image fp u r ts w st = (.dup, st) := by
  simp [fetch_image, get_content_info_of_sizeOk hsize,
    is_duplicate_of_mem hmem]

theorem fetch_image_write {fp : List Nat → List Nat} {u : Url} {r : Response}
    {ts : Nat} {st : FetchState}
    (hsize : sizeOk r = true) (hmem : fp r.body ∉ st.hashes) :
    fetch_image fp u r ts true st =
      (.ok (resolveCollision (keys st.fs) (generate_filename u (toLower r.contentType) ts)),
       ⟨(resolveCollision (keys st.fs) (generate_filename u (toLower r.contentType) ts),
         r.body) :: st.fs,
        fp r.body :: st.hashes⟩) := by
  simp [fetch_image, get_content_info_of_sizeOk hsize,
    is_duplicate_of_not_mem hmem]

theorem fetch_image_write_fail {fp : List Nat → List Nat} {u : Url} {r : Response}
    {ts : Nat} {st : FetchState}
    (hsize : sizeOk r = true) (hmem : fp r.body ∉ st.hashes) :
    fetch_image fp u r ts false st =
      (.writeFail, ⟨st.fs, fp r.body :: st.hashes⟩) := by
  simp [fetch_image, get_content_info_of_sizeOk hsize,
    is_duplicate_of_not_mem hmem]

theorem fetch_image_ok_spec {fp : List Nat → List Nat} {u : Url} {r : Response}
    {ts : Nat} {w : Bool} {st : FetchState} {name : List Char} {st' : FetchState}
    (h : fetch_image fp u r ts w st = (.ok name, st')) :
    sizeOk r = true ∧ fp r.body ∉ st.hashes ∧
      name = resolveCollision (keys st.fs) (generate_filename u (toLower r.contentType) ts) ∧
      st' = ⟨(name, r.body) :: st.fs, fp r.body :: st.hashes⟩ := by
  have hsize : sizeOk r = true := by
    by_contra hs
    obtain ⟨ct, cl, body⟩ := r
    cases cl with
    | none => exact hs rfl
    | some l =>
      simp only [sizeOk, decide_eq_true_eq] at hs
      rw [fetch_image, get_content_info_too_large rfl (by omega)] at h
      exact FetchResult.noConfusion (congrArg Prod.fst h)
  have hmem : fp r.body ∉ st.hashes := by
    intro hm
    rw [fetch_image_dup hsize hm] at h
    exact FetchResult.noConfusion (congrArg Prod.fst h)
  cases w with
  | false =>
    rw [fetch_image_write_fail hsize hmem] at h
    exact FetchResult.noConfusion (congrArg Prod.fst h)
  | true =>
    rw [fetch_image_write hsize hmem, Prod.mk.injEq] at h
    obtain ⟨h1, h2⟩ := h
    injection h1 with hname
    exact ⟨hsize, hmem, hname.symm, by rw [← h2, hname]⟩

end UbuntuImageFetcher

theorem maxLen_cons (a : List Char) (t : List (List Char)) :
    maxLen (a :: t) = max a.length (maxLen t) := rfl

theorem length_le_maxLen {l : List (List Char)} {s : List Char} (h : s ∈ l) :
    s.length ≤ maxLen l := by
  induction l with
  | nil => cases h
  | cons a t ih =>
    rw [maxLen_cons]
    rcases List.mem_cons.mp h with rfl | ht
    · exact le_max_left _ _
    · exact le_trans (ih ht) (le_max_right _ _)

theorem decReprAux_pow_length :
    ∀ m fuel acc, 10 ^ m < fuel →
      m + 1 + acc.length ≤ (decReprAux fuel (10 ^ m) acc).length := by
  intro m
  induction m with
  | zero =>
    intro fuel acc h
    obtain ⟨f, rfl⟩ : ∃ f, fuel = f + 1 := ⟨fuel - 1, by omega⟩
    simp [decReprAux]
    omega
  | succ m ih =>
    intro fuel acc h
    obtain ⟨f, rfl⟩ : ∃ f, fuel = f + 1 :=
      ⟨fuel - 1, by
        have : 0 < 10 ^ (m + 1) := Nat.pos_pow_of_pos _ (by norm_num)
        omega⟩
    have h10 : ¬ 10 ^ (m + 1) < 10 := by
      have : (10 : Nat) ^ 1 ≤ 10 ^ (m + 1) :=
        Nat.pow_le_pow_right (by norm_num) (by omega)
      simpa using this
    have hdiv : 10 ^ (m + 1) / 10 = 10 ^ m := by
      rw [pow_succ]
      exact Nat.mul_div_cancel _ (by norm_num)
    have hf : 10 ^ m < f := by
      have h1 : 10 ^ m < 10 ^ (m + 1) := Nat.pow_lt_pow_succ (by norm_num)
      omega
    have := ih f (digitChar (10 ^ (m + 1) % 10) :: acc) hf
    simp only [decReprAux, if_neg h10, hdiv]
    simp only [List.length_cons] at this
    omega

theorem decRepr_pow_length (m : Nat) : m + 1 ≤ (decRepr (10 ^ m)).length := by
  have := decReprAux_pow_length m (10 ^ m + 1) [] (by omega)
  simpa [decRepr] using this

theorem tryName_pow_length_gt (cand : List Char) (m : Nat) :
    m < (tryName cand (10 ^ m)).length := by
  obtain ⟨k, hk⟩ : ∃ k, 10 ^ m = k + 1 :=
    ⟨10 ^ m - 1, by have : 0 < 10 ^ m := Nat.pos_pow_of_pos m (by norm_num); omega⟩
  have hd : m + 1 ≤ (decRepr (k + 1)).length := by
    rw [← hk]; exact decRepr_pow_length m
  rw [hk]
  simp only [tryName, List.length_append, List.length_cons]
  omega

theorem tryName_pow_not_mem (existing : List (List Char)) (cand : List Char) :
    tryName cand (10 ^ maxLen existing) ∉ existing := by
  intro hmem
  have h1 := length_le_maxLen hmem
  have h2 := tryName_pow_length_gt cand (maxLen existing)
  omega

theorem resolveLoop_isSome (existing : List (List Char)) (cand : List Char) :
    ∀ fuel k, (∃ j, j < fuel ∧ tryName cand (k + j) ∉ existing) →
      (resolveLoop existing cand k fuel).isSome = true := by
  intro fuel
  induction fuel with
  | zero =>
    rintro k ⟨j, hj, -⟩
    omega
  | succ fuel ih =>
    rintro k ⟨j, hj, hout⟩
    rw [resolveLoop]
    by_cases hk : tryName cand k ∈ existing
    · rw [if_pos hk]
      apply ih (k + 1)
      cases j with
      | zero => rw [Nat.add_zero] at hout; exact absurd hk hout
      | succ j' =>
        exact ⟨j', by omega, by rw [show k + 1 + j' = k + (j' + 1) by omega]; exact hout⟩
    · rw [if_neg hk]
      rfl

theorem resolveLoop_spec (existing : List (List Char)) (cand : List Char) :
    ∀ fuel k r, resolveLoop existing cand k fuel = some r →
      ∃ j, r = tryName cand (k + j) ∧ tryName cand (k + j) ∉ existing ∧
        ∀ i, i < j → tryName cand (k + i) ∈ existing := by
  intro fuel
  induction fuel with
  | zero =>
    intro k r h
    exact absurd h (by rw [resolveLoop]; simp)
  | succ fuel ih =>
    intro k r h
    rw [resolveLoop] at h
    by_cases hk : tryName cand k ∈ existing
    · rw [if_pos hk] at h
      obtain ⟨j', h1, h2, h3⟩ := ih (k + 1) r h
      refine ⟨j' + 1, ?_, ?_, ?_⟩
      · rw [show k + (j' + 1) = k + 1 + j' by omega]; exact h1
      · rw [show k + (j' + 1) = k + 1 + j' by omega]; exact h2
      · intro i hi
        cases i with
        | zero => rw [Nat.add_zero]; exact hk
        | succ i' => rw [show k + (i' + 1) = k + 1 + i' by omega]; exact h3 i' (by omega)
    · rw [if_neg hk] at h
      obtain rfl : tryName cand k = r := Option.some.inj h
      exact ⟨0, by rw [Nat.add_zero], by rw [Nat.add_zero]; exact hk,
        fun i hi => absurd hi (Nat.not_lt_zero i)⟩

theorem resolveCollision_spec (existing : List (List Char)) (cand : List Char) :
    ∃ k, resolveCollision existing cand = tryName cand k ∧
      tryName cand k ∉ existing ∧ ∀ j, j < k → tryName cand j ∈ existing := by
  have hsome : (resolveLoop existing cand 0 (fuelFor existing)).isSome = true := by
    apply resolveLoop_isSome
    refine ⟨10 ^ maxLen existing, by rw [fuelFor]; omega, ?_⟩
    rw [Nat.zero_add]
    exact tryName_pow_not_mem existing cand
  obtain ⟨r, hr⟩ := Option.isSome_iff_exists.mp hsome
  obtain ⟨j, h1, h2, h3⟩ := resolveLoop_spec existing cand (fuelFor existing) 0 r hr
  rw [Nat.zero_add] at h1 h2
  refine ⟨j, ?_, h2, fun i hi => ?_⟩
  · rw [resolveCollision, hr]
    exact h1
  · have := h3 i hi
    rwa [Nat.zero_add] at this

theorem resolveCollision_not_mem (existing : List (List Char)) (cand : List Char) :
    resolveCollision existing cand ∉ existing := by
  obtain ⟨k, h1, h2, -⟩ := resolveCollision_spec existing cand
  rw [h1]
  exact h2

theorem mem_of_mem_splitext_fst {c : Char} {s : List Char}
    (h : c ∈ (splitext s).1) : c ∈ s := by
  simp only [splitext] at h
  split at h
  · split at h
    · simp only at h
      exact List.mem_reverse.mp (List.drop_subset _ _ (List.mem_reverse.mp h))
    · exact h
  · exact h

theorem mem_of_mem_splitext_snd {c : Char} {s : List Char}
    (h : c ∈ (splitext s).2) : c ∈ s := by
  simp only [splitext] at h
  split at h
  · split at h
    · simp only at h
      exact List.mem_reverse.mp (List.take_subset _ _ (List.mem_reverse.mp h))
    · exact absurd h (List.not_mem_nil c)
  · exact absurd h (List.not_mem_nil c)

theorem digitChar_isDigit {d : Nat} (h : d < 10) : (digitChar d).isDigit = true := by
  interval_cases d <;> decide

theorem mem_decReprAux {c : Char} :
    ∀ fuel n acc, c ∈ decReprAux fuel n acc → c ∈ acc ∨ c.isDigit = true := by
  intro fuel
  induction fuel with
  | zero => intro n acc h; exact Or.inl h
  | succ fuel ih =>
    intro n acc h
    rw [decReprAux] at h
    split at h
    · rcases List.mem_cons.mp h with rfl | hacc
      · exact Or.inr (digitChar_isDigit (Nat.mod_lt _ (by norm_num)))
      · exact Or.inl hacc
    · rcases ih _ _ h with hC | hd
      · rcases List.mem_cons.mp hC with rfl | hacc
        · exact Or.inr (digitChar_isDigit (Nat.mod_lt _ (by norm_num)))
        · exact Or.inl hacc
      · exact Or.inr hd

theorem mem_decRepr_isDigit {c : Char} {n : Nat} (h : c ∈ decRepr n) :
    c.isDigit = true := by
  rcases mem_decReprAux _ _ _ h with h0 | hd
  · exact absurd h0 (List.not_mem_nil c)
  · exact hd

theorem allowedChar_of_isDigit {c : Char} (h : c.isDigit = true) :
    allowedChar c = true := by
  simp [allowedChar, Char.isAlphanum, h]

theorem allowedChar_of_mem_sanitize {c : Char} {f : List Char}
    (h : c ∈ sanitize f) : allowedChar c = true :=
  List.of_mem_filter h

theorem tryName_sanitize_allowed {f : List Char} {k : Nat} {c : Char}
    (h : c ∈ tryName (sanitize f) k) : allowedChar c = true := by
  cases k with
  | zero => exact allowedChar_of_mem_sanitize h
  | succ k =>
    simp only [tryName, List.mem_append, List.mem_cons] at h
    rcases h with h1 | rfl | h3 | h5
    · exact allowedChar_of_mem_sanitize (mem_of_mem_splitext_fst h1)
    · decide
    · exact allowedChar_of_isDigit (mem_decRepr_isDigit h3)
    · exact allowedChar_of_mem_sanitize (mem_of_mem_splitext_snd h5)

theorem generate_filename_eq_sanitize (u : Url) (ct : List Char) (ts : Nat) :
    ∃ g, UbuntuImageFetcher.generate_filename u ct ts = sanitize g := by
  simp only [UbuntuImageFetcher.generate_filename]
  split
  · exact ⟨_, rfl⟩
  · exact ⟨_, rfl⟩

theorem generate_filename_synth (u : Url) (ct : List Char) (ts : Nat)
    (h : basename u.path = [] ∨ '.' ∉ basename u.path) :
    UbuntuImageFetcher.generate_filename u ct ts =
      sanitize (removeWWW u.netloc ++
        '_' :: (decRepr ts ++ (UbuntuImageFetcher.guess_extension ct).getD (chars ".jpg"))) := by
  simp only [UbuntuImageFetcher.generate_filename]
  rw [if_pos h]

theorem lookupFs_cons_self (fs : List (List Char × List Nat)) (n : List Char)
    (b : List Nat) : lookupFs ((n, b) :: fs) n = some b := by
  simp [lookupFs, List.find?]

/-- Claim C10 (confirmed): for every candidate filename and every finite
directory listing, the collision-resolution loop terminates: there is a
counter value `k` such that the `k`-th tried name (the candidate itself for
`k = 0`, `stem_k.ext` for `k ≥ 1`) does not exist in the directory, and the
loop returns the first such name. -/
theorem C10_collision_loop_terminates (existing : List (List Char))
    (cand : List Char) :
    ∃ k, resolveCollision existing cand = tryName cand k ∧
      tryName cand k ∉ existing ∧ ∀ j, j < k → tryName cand j ∈ existing :=
  resolveCollision_spec existing cand

namespace UbuntuImageFetcher

/-- Claim C4 (corrected; the part that holds, on `UbuntuImageFetcher`): a
successful write never overwrites. The written name is produced by the
incrementing-suffix loop — it is the first tried name absent from the
directory — it did not exist in the directory at resolution time, and the
directory afterwards is the old directory with exactly the one new entry
prepended (every pre-existing file kept untouched). The other implementation,
`ImageDownloader.fetch_image`, violates the claim (see its counterexample). -/
theorem C4_suffix_resolution_never_overwrites (fp : List Nat → List Nat)
    (u : Url) (r : Response) (ts : Nat) (st : FetchState) (name : List Char)
    (st' : FetchState) (h : fetch_image fp u r ts true st = (.ok name, st')) :
    name ∉ keys st.fs ∧
      (∃ k, name = tryName (generate_filename u (toLower r.contentType) ts) k ∧
        ∀ j, j < k →
          tryName (generate_filename u (toLower r.contentType) ts) j ∈ keys st.fs) ∧
      st'.fs = (name, r.body) :: st.fs := by
  obtain ⟨-, -, hname, hst⟩ := fetch_image_ok_spec h
  obtain ⟨k, e1, e2, e3⟩ :=
    resolveCollision_spec (keys st.fs) (generate_filename u (toLower r.contentType) ts)
  refine ⟨?_, ⟨k, ?_, e3⟩, ?_⟩
  · rw [hname, e1]; exact e2
  · rw [hname, e1]
  · rw [hst]

/-- Claim C6 (corrected; the part that holds, on `UbuntuImageFetcher`): every
character of a filename written by the claude fetcher is alphanumeric or one
of `.`, `_`, `-`; in particular the written name contains no path separator.
`ImageDownloader.get_filename` performs no such sanitization (see the
counterexample). -/
theorem C6_written_name_sanitized (fp : List Nat → List Nat) (u : Url)
    (r : Response) (ts : Nat) (st : FetchState) (name : List Char)
    (st' : FetchState) (h : fetch_image fp u r ts true st = (.ok name, st')) :
    (∀ c ∈ name, allowedChar c = true) ∧ '/' ∉ name := by
  obtain ⟨-, -, hname, -⟩ := fetch_image_ok_spec h
  obtain ⟨g, hg⟩ := generate_filename_eq_sanitize u (toLower r.contentType) ts
  obtain ⟨k, e1, -, -⟩ :=
    resolveCollision_spec (keys st.fs) (generate_filename u (toLower r.contentType) ts)
  have hall : ∀ c ∈ name, allowedChar c = true := by
    intro c hc
    rw [hname, e1, hg] at hc
    exact tryName_sanitize_allowed hc
  exact ⟨hall, fun hmem => absurd (hall '/' hmem) (by decide)⟩

/-- Claim C7 (corrected; the part that holds, on `UbuntuImageFetcher`): a
successful fetch of an accepted, non-duplicate payload creates exactly one
new file — the directory grows by one entry, at a name that did not exist
before — and the stored bytes are exactly the fetched payload.
`ImageDownloader.fetch_image` can instead replace an existing file, creating
no new entry (see the counterexample). -/
theorem C7_one_new_file_roundtrip (fp : List Nat → List Nat) (u : Url)
    (r : Response) (ts : Nat) (st : FetchState) (name : List Char)
    (st' : FetchState) (h : fetch_image fp u r ts true st = (.ok name, st')) :
    st'.fs.length = st.fs.length + 1 ∧ lookupFs st'.fs name = some r.body ∧
      name ∉ keys st.fs := by
  obtain ⟨-, -, hname, hst⟩ := fetch_image_ok_spec h
  have hnot : name ∉ keys st.fs := by
    rw [hname]; exact resolveCollision_not_mem _ _
  rw [hst]
  exact ⟨by simp, lookupFs_cons_self _ _ _, hnot⟩

/-- Claim C3 (corrected; the part that holds): a declared content length
above the 10 MiB cap (10485760 bytes) makes `fetch_image` fail with the
`ValueError` path (`tooLarge`) and leaves both the directory and the
fingerprint set untouched. The undeclared-length half of the claim is false:
the source never counts the bytes it reads (see the counterexample). -/
theorem C3_declared_over_cap_rejected (fp : List Nat → List Nat) (u : Url)
    (r : Response) (ts : Nat) (w : Bool) (st : FetchState) (l : Nat)
    (hl : r.contentLength = some l) (hcap : 10485760 < l) :
    fetch_image fp u r ts w st = (.tooLarge, st) := by
  simp only [fetch_image, get_content_info_too_large hl hcap]

/-- Claim C9 (confirmed): when the duplicate check reports non-duplicate, the
fingerprint is added to the set before the write is attempted; so if the
write fails, the run still remembers the fingerprint — the directory is
unchanged, yet any later fetch of byte-identical content (whatever its URL,
timestamp, or write outcome) is reported as a duplicate. -/
theorem C9_fingerprint_recorded_before_write (fp : List Nat → List Nat)
    (u : Url) (r : Response) (ts : Nat) (st : FetchState)
    (hsize : sizeOk r = true) (hnew : fp r.body ∉ st.hashes) :
    (fetch_image fp u r ts false st).1 = .writeFail ∧
    (fetch_image fp u r ts false st).2.fs = st.fs ∧
    fp r.body ∈ (fetch_image fp u r ts false st).2.hashes ∧
    ∀ u2 r2 ts2 w2, sizeOk r2 = true → r2.body = r.body →
      (fetch_image fp u2 r2 ts2 w2 (fetch_image fp u r ts false st).2).1 = .dup := by
  rw [fetch_image_write_fail hsize hnew]
  refine ⟨rfl, rfl, List.mem_cons_self _ _, ?_⟩
  intro u2 r2 ts2 w2 hs2 hb
  rw [fetch_image_dup hs2 (by rw [hb]; exact List.mem_cons_self _ _)]

/-- Claim C1 (corrected; the part that holds, on `UbuntuImageFetcher`): after
a successful fetch persisted a payload (growing the directory by one file), a
second fetch of a byte-identical payload from any URL in the same run hits
the fingerprint set, yields the duplicate outcome, and changes nothing — so
exactly one file is persisted for the pair. `ImageDownloader`, whose
duplicate check only compares against the file at the same target path,
persists both copies (see the counterexample). -/
theorem C1_identical_payload_deduplicated (fp : List Nat → List Nat)
    (u1 u2 : Url) (r1 r2 : Response) (ts1 ts2 : Nat) (st : FetchState)
    (name1 : List Char) (st1 : FetchState)
    (h1 : fetch_image fp u1 r1 ts1 true st = (.ok name1, st1))
    (hbody : r2.body = r1.body) (hsize2 : sizeOk r2 = true) :
    (fetch_image fp u2 r2 ts2 true st1).1 = .dup ∧
    (fetch_image fp u2 r2 ts2 true st1).2 = st1 ∧
    st1.fs.length = st.fs.length + 1 := by
  obtain ⟨-, -, -, hst⟩ := fetch_image_ok_spec h1
  have hmem : fp r2.body ∈ st1.hashes := by
    rw [hbody, hst]
    exact List.mem_cons_self _ _
  rw [fetch_image_dup hsize2 hmem]
  exact ⟨rfl, rfl, by rw [hst]; simp⟩

/-- Claim C8 (corrected; the part that holds): when the URL path's basename
is empty or contains no dot — the source's actual trigger, not the claim's
"lacks a recognized image extension" — the claude fetcher synthesizes
`domain_timestamp.ext`, with `www.` removed from the host, the extension
taken from the `mimetypes` mapping with `.jpg` as the unknown/missing-type
default, and the sanitizer applied to the result. -/
theorem C8_synthesized_filename (u : Url) (ct : List Char) (ts : Nat)
    (h : basename u.path = [] ∨ '.' ∉ basename u.path) :
    generate_filename u ct ts =
      sanitize (removeWWW u.netloc ++
        '_' :: (decRepr ts ++ (guess_extension ct).getD (chars ".jpg"))) :=
  generate_filename_synth u ct ts h

end UbuntuImageFetcher

namespace ImageDownloader

/-- Claim C2 (corrected; the part that holds, on `ImageDownloader`): when the
declared content type does not contain the substring `image`
case-insensitively — the source's actual predicate, rather than the claim's
prefix match on `image/` — the fetch is rejected and the directory is left
untouched. `UbuntuImageFetcher` computes the `image/` prefix check but only
prints a warning and proceeds (see the counterexample). -/
theorem C2_non_image_rejected (fp : List Nat → List Nat) (u : Url)
    (r : Response) (fs : List (List Char × List Nat))
    (h : isSubstr (chars "image") (toLower r.contentType) = false) :
    fetch_image fp u r fs = (.notImage, fs) := by
  simp only [fetch_image]
  rw [if_pos h]

/-- Claim C1 (counterexample): two byte-identical payloads fetched by
`ImageDownloader.fetch_image` from URLs with different basenames are both
persisted — two files and no duplicate outcome, against the claim's "exactly
one persisted file" — because `file_already_exists` only compares against the
file already at the same target path. -/
theorem C1_counterexample :
    (fetch_image (fun b => b) ⟨chars "example.com", chars "/a.png"⟩
        ⟨chars "image/png", some 3, [1, 2, 3]⟩ []).1 = .ok (chars "a.png") ∧
    fetch_image (fun b => b) ⟨chars "example.com", chars "/b.png"⟩
        ⟨chars "image/png", some 3, [1, 2, 3]⟩
        (fetch_image (fun b => b) ⟨chars "example.com", chars "/a.png"⟩
          ⟨chars "image/png", some 3, [1, 2, 3]⟩ []).2 =
      (.ok (chars "b.png"),
        [(chars "b.png", [1, 2, 3]), (chars "a.png", [1, 2, 3])]) := by
  exact ⟨by decide, by decide⟩

/-- Claim C4 (counterexample): `ImageDownloader.fetch_image` resolves to a
name that already exists with different content and overwrites it — the old
content `[9, 9]` stored at `c.png` is destroyed, against the claim's
"persisting never overwrites an existing file". -/
theorem C4_counterexample :
    fetch_image (fun b => b) ⟨chars "example.com", chars "/c.png"⟩
        ⟨chars "image/png", some 2, [7, 7]⟩ [(chars "c.png", [9, 9])] =
      (.ok (chars "c.png"), [(chars "c.png", [7, 7])]) := by
  decide

/-- Claim C6 (counterexample): `ImageDownloader` writes the filename
`a%20b.png`, which contains `%` — a character that is neither alphanumeric
nor `.`, `_`, `-` — against the claim's character-set guarantee: a non-empty
basename is used with no sanitization. -/
theorem C6_counterexample :
    (fetch_image (fun b => b) ⟨chars "example.com", chars "/a%20b.png"⟩
        ⟨chars "image/png", some 1, [4]⟩ []).1 = .ok (chars "a%20b.png") ∧
    '%' ∈ chars "a%20b.png" ∧ allowedChar '%' = false := by
  exact ⟨by decide, by decide, by decide⟩

/-- Claim C7 (counterexample): an accepted, non-duplicate payload fetched by
`ImageDownloader.fetch_image` onto an already-used name replaces that file:
the fetch succeeds but the directory's file count does not grow, against the
claim's "creates exactly one new file". -/
theorem C7_counterexample :
    (fetch_image (fun b => b) ⟨chars "example.com", chars "/d.png"⟩
        ⟨chars "image/png", some 2, [8, 9]⟩ [(chars "d.png", [5])]).1 =
      .ok (chars "d.png") ∧
    (fetch_image (fun b => b) ⟨chars "example.com", chars "/d.png"⟩
        ⟨chars "image/png", some 2, [8, 9]⟩ [(chars "d.png", [5])]).2.length =
      [(chars "d.png", [5])].length := by
  exact ⟨by decide, by decide⟩

end ImageDownloader

namespace UbuntuImageFetcher

/-- Claim C2 (counterexample): `UbuntuImageFetcher.fetch_image` given a
response declared `text/html` — which fails the `image/` check — is not
rejected: the fingerprint is recorded and the file is written, against the
claim's "no file is written and no fingerprint is recorded". -/
theorem C2_counterexample :
    isImageCT (toLower (chars "text/html")) = false ∧
    fetch_image (fun b => b) ⟨chars "example.com", chars "/page.html"⟩
        ⟨chars "text/html", some 500, [1, 2, 3]⟩ 0 true ⟨[], []⟩ =
      (.ok (chars "page.html"),
        ⟨[(chars "page.html", [1, 2, 3])], [[1, 2, 3]]⟩) := by
  exact ⟨by decide, by decide⟩

/-- Claim C3 (counterexample): with no declared content length, the cap is
not enforced against the bytes actually read — a payload of 10485761 bytes,
one over the cap, is accepted and written, against the claim's "the cap is
still enforced against the actual number of bytes read". -/
theorem C3_counterexample :
    10485760 < (List.replicate 10485761 (0 : Nat)).length ∧
    (fetch_image (fun b => b) ⟨chars "example.com", chars "/big.png"⟩
        ⟨chars "image/png", none, List.replicate 10485761 (0 : Nat)⟩ 0 true
        ⟨[], []⟩).1 = .ok (chars "big.png") := by
  refine ⟨by rw [List.length_replicate]; omega, ?_⟩
  have h := @fetch_image_write (fun b => b)
    ⟨chars "example.com", chars "/big.png"⟩
    ⟨chars "image/png", none, List.replicate 10485761 (0 : Nat)⟩ 0 ⟨[], []⟩
    rfl (List.not_mem_nil _)
  rw [h]
  exact congrArg FetchResult.ok (by decide)

/-- Claim C8 (counterexample): for a URL whose basename contains a dot but no
recognized image extension (`/document.pdf`, per the repository's own
`VALID_EXTENSIONS` list), the claude fetcher keeps the basename unchanged
instead of synthesizing a host-plus-timestamp name: the source's trigger is a
missing dot, not a missing image extension. -/
theorem C8_counterexample :
    (¬ ∃ e ∈ ImageDownloader.VALID_EXTENSIONS,
        e.isSuffixOf (toLower (chars "document.pdf")) = true) ∧
    generate_filename ⟨chars "example.com", chars "/document.pdf"⟩
        (chars "image/png") 1700000000 = chars "document.pdf" := by
  exact ⟨by decide, by decide⟩

set_option maxRecDepth 100000 in
/-- Claim C5 (code bug): on a batch of two URLs resolving to identical
500-byte payloads, the source's tally is `successful = 1, failed = 1,
duplicates = 0` with exactly one file in the directory: the duplicate skip is
counted as a failure, and the `duplicates` key that `fetch_multiple_images`
initializes is never incremented, so the spec's expected tally
`{success: 1, duplicate: 1, failure: 0}` is unreachable. -/
theorem C5_duplicate_counted_as_failure :
    (fetch_multiple_images (fun b => b)
        [(⟨chars "example.com", chars "/a.png"⟩,
          ⟨chars "image/png", some 500, List.replicate 500 7⟩, 0),
         (⟨chars "example.com", chars "/a.png"⟩,
          ⟨chars "image/png", some 500, List.replicate 500 7⟩, 1)]
        ⟨[], []⟩).1 = ⟨1, 1, 0⟩ ∧
    (fetch_multiple_images (fun b => b)
        [(⟨chars "example.com", chars "/a.png"⟩,
          ⟨chars "image/png", some 500, List.replicate 500 7⟩, 0),
         (⟨chars "example.com", chars "/a.png"⟩,
          ⟨chars "image/png", some 500, List.replicate 500 7⟩, 1)]
        ⟨[], []⟩).2.fs.length = 1 := by
  exact ⟨by decide, by decide⟩

end UbuntuImageFetcher

namespace UbuntuImageFetcher

/-- Claim C1 (witness): the deduplication theorem applied to two URLs with
identical 3-byte payloads starting from the empty state. -/
theorem C1_witness :
    (fetch_image (fun b => b) ⟨chars "example.com", chars "/a.png"⟩
        ⟨chars "image/png", some 3, [1, 2, 3]⟩ 0 true ⟨[], []⟩ =
      (.ok (chars "a.png"), ⟨[(chars "a.png", [1, 2, 3])], [[1, 2, 3]]⟩)) ∧
    (fetch_image (fun b => b) ⟨chars "example.com", chars "/b.png"⟩
        ⟨chars "image/png", some 3, [1, 2, 3]⟩ 1 true
        ⟨[(chars "a.png", [1, 2, 3])], [[1, 2, 3]]⟩).1 = .dup ∧
    (fetch_image (fun b => b) ⟨chars "example.com", chars "/b.png"⟩
        ⟨chars "image/png", some 3, [1, 2, 3]⟩ 1 true
        ⟨[(chars "a.png", [1, 2, 3])], [[1, 2, 3]]⟩).2 =
      ⟨[(chars "a.png", [1, 2, 3])], [[1, 2, 3]]⟩ ∧
    (⟨[(chars "a.png", [1, 2, 3])], [[1, 2, 3]]⟩ : FetchState).fs.length =
      (⟨[], []⟩ : FetchState).fs.length + 1 := by
  have h1 : fetch_image (fun b => b) ⟨chars "example.com", chars "/a.png"⟩
      ⟨chars "image/png", some 3, [1, 2, 3]⟩ 0 true ⟨[], []⟩ =
      (.ok (chars "a.png"), ⟨[(chars "a.png", [1, 2, 3])], [[1, 2, 3]]⟩) := by
    decide
  have h2 := C1_identical_payload_deduplicated (fun b => b)
    ⟨chars "example.com", chars "/a.png"⟩ ⟨chars "example.com", chars "/b.png"⟩
    ⟨chars "image/png", some 3, [1, 2, 3]⟩ ⟨chars "image/png", some 3, [1, 2, 3]⟩
    0 1 ⟨[], []⟩ (chars "a.png") ⟨[(chars "a.png", [1, 2, 3])], [[1, 2, 3]]⟩
    h1 rfl (by decide)
  exact ⟨h1, h2.1, h2.2.1, h2.2.2⟩

/-- Claim C3 (witness): the declared-size theorem applied to a response
declaring 11000000 bytes against the 10485760-byte cap. -/
theorem C3_witness :
    10485760 < 11000000 ∧
    fetch_image (fun b => b) ⟨chars "example.com", chars "/a.png"⟩
        ⟨chars "image/png", some 11000000, [1]⟩ 0 true ⟨[], []⟩ =
      (.tooLarge, ⟨[], []⟩) := by
  refine ⟨by omega, ?_⟩
  exact C3_declared_over_cap_rejected (fun b => b)
    ⟨chars "example.com", chars "/a.png"⟩ ⟨chars "image/png", some 11000000, [1]⟩
    0 true ⟨[], []⟩ 11000000 rfl (by omega)

/-- Claim C4 (witness): the no-overwrite theorem applied to a fetch that
collides with the existing `a.png` and resolves to `a_1.png`. -/
theorem C4_witness :
    (fetch_image (fun b => b) ⟨chars "example.com", chars "/a.png"⟩
        ⟨chars "image/png", some 2, [1, 2]⟩ 0 true
        ⟨[(chars "a.png", [9])], [[9]]⟩ =
      (.ok (chars "a_1.png"),
        ⟨[(chars "a_1.png", [1, 2]), (chars "a.png", [9])], [[1, 2], [9]]⟩)) ∧
    chars "a_1.png" ∉ keys [(chars "a.png", [9])] ∧
    (∃ k, chars "a_1.png" =
        tryName (generate_filename ⟨chars "example.com", chars "/a.png"⟩
          (toLower (chars "image/png")) 0) k ∧
      ∀ j, j < k →
        tryName (generate_filename ⟨chars "example.com", chars "/a.png"⟩
          (toLower (chars "image/png")) 0) j ∈ keys [(chars "a.png", [9])]) ∧
    (⟨[(chars "a_1.png", [1, 2]), (chars "a.png", [9])], [[1, 2], [9]]⟩ :
        FetchState).fs =
      (chars "a_1.png", [1, 2]) :: [(chars "a.png", [9])] := by
  have h : fetch_image (fun b => b) ⟨chars "example.com", chars "/a.png"⟩
      ⟨chars "image/png", some 2, [1, 2]⟩ 0 true
      ⟨[(chars "a.png", [9])], [[9]]⟩ =
      (.ok (chars "a_1.png"),
        ⟨[(chars "a_1.png", [1, 2]), (chars "a.png", [9])], [[1, 2], [9]]⟩) := by
    decide
  have h2 := C4_suffix_resolution_never_overwrites (fun b => b)
    ⟨chars "example.com", chars "/a.png"⟩ ⟨chars "image/png", some 2, [1, 2]⟩
    0 ⟨[(chars "a.png", [9])], [[9]]⟩ (chars "a_1.png")
    ⟨[(chars "a_1.png", [1, 2]), (chars "a.png", [9])], [[1, 2], [9]]⟩ h
  exact ⟨h, h2.1, h2.2.1, h2.2.2⟩

/-- Claim C6 (witness): the sanitized-name theorem applied to a successful
fetch that writes `pic.png`. -/
theorem C6_witness :
    (fetch_image (fun b => b) ⟨chars "example.com", chars "/pic.png"⟩
        ⟨chars "image/png", some 1, [6]⟩ 0 true ⟨[], []⟩ =
      (.ok (chars "pic.png"), ⟨[(chars "pic.png", [6])], [[6]]⟩)) ∧
    (∀ c ∈ chars "pic.png", allowedChar c = true) ∧ '/' ∉ chars "pic.png" := by
  have h : fetch_image (fun b => b) ⟨chars "example.com", chars "/pic.png"⟩
      ⟨chars "image/png", some 1, [6]⟩ 0 true ⟨[], []⟩ =
      (.ok (chars "pic.png"), ⟨[(chars "pic.png", [6])], [[6]]⟩) := by
    decide
  have h2 := C6_written_name_sanitized (fun b => b)
    ⟨chars "example.com", chars "/pic.png"⟩ ⟨chars "image/png", some 1, [6]⟩
    0 ⟨[], []⟩ (chars "pic.png") ⟨[(chars "pic.png", [6])], [[6]]⟩ h
  exact ⟨h, h2.1, h2.2⟩

/-- Claim C7 (witness): the one-new-file round-trip theorem applied to a
fetch of `y.png` into a directory already holding `x.png`. -/
theorem C7_witness :
    (fetch_image (fun b => b) ⟨chars "example.com", chars "/y.png"⟩
        ⟨chars "image/png", some 1, [4]⟩ 0 true
        ⟨[(chars "x.png", [3])], [[3]]⟩ =
      (.ok (chars "y.png"),
        ⟨[(chars "y.png", [4]), (chars "x.png", [3])], [[4], [3]]⟩)) ∧
    (⟨[(chars "y.png", [4]), (chars "x.png", [3])], [[4], [3]]⟩ :
        FetchState).fs.length =
      (⟨[(chars "x.png", [3])], [[3]]⟩ : FetchState).fs.length + 1 ∧
    lookupFs [(chars "y.png", [4]), (chars "x.png", [3])] (chars "y.png") =
      some [4] ∧
    chars "y.png" ∉ keys [(chars "x.png", [3])] := by
  have h : fetch_image (fun b => b) ⟨chars "example.com", chars "/y.png"⟩
      ⟨chars "image/png", some 1, [4]⟩ 0 true ⟨[(chars "x.png", [3])], [[3]]⟩ =
      (.ok (chars "y.png"),
        ⟨[(chars "y.png", [4]), (chars "x.png", [3])], [[4], [3]]⟩) := by
    decide
  have h2 := C7_one_new_file_roundtrip (fun b => b)
    ⟨chars "example.com", chars "/y.png"⟩ ⟨chars "image/png", some 1, [4]⟩
    0 ⟨[(chars "x.png", [3])], [[3]]⟩ (chars "y.png")
    ⟨[(chars "y.png", [4]), (chars "x.png", [3])], [[4], [3]]⟩ h
  exact ⟨h, h2.1, h2.2.1, h2.2.2⟩

/-- Claim C8 (witness): the synthesized-filename theorem applied to a URL
with an empty basename, host `www.example.com`, and content type
`image/jpeg`. -/
theorem C8_witness :
    (basename (chars "/") = [] ∨ '.' ∉ basename (chars "/")) ∧
    generate_filename ⟨chars "www.example.com", chars "/"⟩
        (chars "image/jpeg") 1700000000 =
      sanitize (removeWWW (chars "www.example.com") ++
        '_' :: (decRepr 1700000000 ++
          (guess_extension (chars "image/jpeg")).getD (chars ".jpg"))) := by
  exact ⟨Or.inl (by decide),
    C8_synthesized_filename ⟨chars "www.example.com", chars "/"⟩
      (chars "image/jpeg") 1700000000 (Or.inl (by decide))⟩

/-- Claim C9 (witness): the fingerprint-before-write theorem applied to a
failing write of a fresh 2-byte payload, followed by a successful re-fetch of
the same bytes, which is reported as a duplicate. -/
theorem C9_witness :
    sizeOk ⟨chars "image/png", some 2, [4, 4]⟩ = true ∧
    ((fun (b : List Nat) => b) [4, 4] ∉ (⟨[], []⟩ : FetchState).hashes) ∧
    (fetch_image (fun b => b) ⟨chars "example.com", chars "/z.png"⟩
        ⟨chars "image/png", some 2, [4, 4]⟩ 0 false ⟨[], []⟩).1 = .writeFail ∧
    (fetch_image (fun b => b) ⟨chars "example.com", chars "/z.png"⟩
        ⟨chars "image/png", some 2, [4, 4]⟩ 0 false ⟨[], []⟩).2.fs =
      (⟨[], []⟩ : FetchState).fs ∧
    (fun (b : List Nat) => b) [4, 4] ∈
      (fetch_image (fun b => b) ⟨chars "example.com", chars "/z.png"⟩
        ⟨chars "image/png", some 2, [4, 4]⟩ 0 false ⟨[], []⟩).2.hashes ∧
    (fetch_image (fun b => b) ⟨chars "example.com", chars "/w.png"⟩
        ⟨chars "image/png", some 2, [4, 4]⟩ 1 true
        (fetch_image (fun b => b) ⟨chars "example.com", chars "/z.png"⟩
          ⟨chars "image/png", some 2, [4, 4]⟩ 0 false ⟨[], []⟩).2).1 = .dup := by
  have h := C9_fingerprint_recorded_before_write (fun b => b)
    ⟨chars "example.com", chars "/z.png"⟩ ⟨chars "image/png", some 2, [4, 4]⟩
    0 ⟨[], []⟩ (by decide) (by decide)
  exact ⟨by decide, by decide, h.1, h.2.1, h.2.2.1,
    h.2.2.2 ⟨chars "example.com", chars "/w.png"⟩
      ⟨chars "image/png", some 2, [4, 4]⟩ 1 true (by decide) rfl⟩

end UbuntuImageFetcher

namespace ImageDownloader

/-- Claim C2 (witness): the rejection theorem applied to a `text/html`
response. -/
theorem C2_witness :
    isSubstr (chars "image") (toLower (chars "text/html")) = false ∧
    fetch_image (fun b => b) ⟨chars "example.com", chars "/x"⟩
        ⟨chars "text/html", some 5, [1]⟩ [] = (.notImage, []) := by
  exact ⟨by decide,
    C2_non_image_rejected (fun b => b) ⟨chars "example.com", chars "/x"⟩
      ⟨chars "text/html", some 5, [1]⟩ [] (by decide)⟩

end ImageDownloader
